import Mathlib

/-!
Verification of the CycleGAN / TransGAN repository
(`cyclegan/CycleGan.py`, `transgan/build_discriminator.py`).

Tensors are modelled as flat lists of real numbers; framework reductions
(`tf.reduce_mean`, `tf.abs`, elementwise subtraction) are modelled pointwise
on those lists.  Binary cross-entropy with `from_logits=True` follows the
standard sigmoid-cross-entropy formulation used by the framework.
-/

set_option linter.unusedVariables false

/-- A tensor, flattened to its list of scalar entries. -/
abbrev Tensor : Type := List ℝ

/-- Elementwise subtraction of two tensors (`a - b`). -/
def tensorSub (a b : Tensor) : Tensor := List.zipWith (fun x y => x - y) a b

/-- Elementwise absolute value (`tf.abs`). -/
def tensorAbs (a : Tensor) : Tensor := List.map (fun x => |x|) a

/-- `tf.reduce_mean`: sum of all entries divided by their number. -/
noncomputable def reduce_mean (a : Tensor) : ℝ := a.sum / a.length

/-- `tf.ones_like`: a tensor of ones with the shape of `a`. -/
def onesLike (a : Tensor) : Tensor := a.map (fun _ => 1)

/-- `tf.zeros_like`: a tensor of zeros with the shape of `a`. -/
def zerosLike (a : Tensor) : Tensor := a.map (fun _ => 0)

/-- Pointwise sigmoid cross-entropy with logits, the framework formulation
`max(z, 0) - z*y + log(1 + exp(-|z|))` for label `y` and logit `z`. -/
noncomputable def sigmoidCrossEntropy (y z : ℝ) : ℝ :=
  max z 0 - z * y + Real.log (1 + Real.exp (-|z|))

/-- `tf.keras.losses.BinaryCrossentropy(from_logits=True)`: mean of the
pointwise sigmoid cross-entropy of labels against logits. -/
noncomputable def bceFromLogits (labels logits : Tensor) : ℝ :=
  reduce_mean (List.zipWith sigmoidCrossEntropy labels logits)

/-- Configuration of a `tf.keras.optimizers.Adam` instance.  The framework
defaults are `beta_2 = 0.999` and `epsilon = 1e-7`. -/
structure AdamConfig where
  learning_rate : ℝ
  beta_1 : ℝ
  beta_2 : ℝ
  epsilon : ℝ

/-- Modelled from the spec: a `tf.train.Checkpoint` bundle — the fixed names
under which the eight owned objects are registered, and the save counter
used to number successive checkpoints. -/
structure Checkpoint where
  keys : List String
  save_counter : ℕ
  deriving Repr, DecidableEq

/-- Modelled from the spec: `tf.train.Checkpoint.save` (framework-owned)
writes a new numbered checkpoint under the given file prefix and returns
its path, incrementing the save counter. -/
def Checkpoint.save (c : Checkpoint) (p : String) : Checkpoint × String :=
  ({ keys := c.keys, save_counter := c.save_counter + 1 },
   p ++ "-" ++ toString (c.save_counter + 1))

/-- The attribute names assigned on `self` in `CycleGanTraining.__init__`
(`CycleGan.py` lines 85–111).  Note that `checkpoint_prefix` is NOT among
them: the constructor receives that argument but never stores it. -/
def assignedAttrs : List String :=
  ["generator_g", "generator_f", "discriminator_x", "discriminator_y",
   "LAMBDA", "loss_obj",
   "generator_g_optimizer", "generator_f_optimizer",
   "discriminator_x_optimizer", "discriminator_y_optimizer",
   "checkpoint"]

/-- Python errors that the modelled code can raise. -/
inductive PyError where
  | attributeError (n : String)
  | nameError (n : String)
  deriving Repr, DecidableEq

/-- The state of a `CycleGanTraining` object: the four networks (as functions
on tensors, parameters baked in), the cycle weight `LAMBDA`, the loss object,
the four Adam optimizer configurations and the checkpoint bundle. -/
structure CycleGanTraining where
  generator_g : Tensor → Tensor
  generator_f : Tensor → Tensor
  discriminator_x : Tensor → Tensor
  discriminator_y : Tensor → Tensor
  LAMBDA : ℝ
  loss_obj : Tensor → Tensor → ℝ
  generator_g_optimizer : AdamConfig
  generator_f_optimizer : AdamConfig
  discriminator_x_optimizer : AdamConfig
  discriminator_y_optimizer : AdamConfig
  checkpoint : Checkpoint

/-- `CycleGanTraining.__init__` (lines 74–111): stores the four networks, sets
`LAMBDA = 10` and the binary-cross-entropy-from-logits loss object, builds four
Adam optimizers from `learning_rate` and `beta_1` only (so `beta_2` falls back
to the framework default `0.999`), and registers all eight objects in one
checkpoint.  The constructor argument modelling `checkpoint_prefix` (`cpfx`)
is received but never stored on the object. -/
noncomputable def CycleGanTraining.mkTrainer
    (generator_g generator_f discriminator_x discriminator_y : Tensor → Tensor)
    (learning_rate beta_1 beta_2 : ℝ) (cpfx : Option String) :
    CycleGanTraining :=
  { generator_g := generator_g
    generator_f := generator_f
    discriminator_x := discriminator_x
    discriminator_y := discriminator_y
    LAMBDA := 10
    loss_obj := bceFromLogits
    generator_g_optimizer :=
      { learning_rate := learning_rate, beta_1 := beta_1,
        beta_2 := 0.999, epsilon := 1e-7 }
    generator_f_optimizer :=
      { learning_rate := learning_rate, beta_1 := beta_1,
        beta_2 := 0.999, epsilon := 1e-7 }
    discriminator_x_optimizer :=
      { learning_rate := learning_rate, beta_1 := beta_1,
        beta_2 := 0.999, epsilon := 1e-7 }
    discriminator_y_optimizer :=
      { learning_rate := learning_rate, beta_1 := beta_1,
        beta_2 := 0.999, epsilon := 1e-7 }
    checkpoint :=
      { keys := ["generator_g", "generator_f",
                 "discriminator_x", "discriminator_y",
                 "generator_g_optimizer", "generator_f_optimizer",
                 "discriminator_x_optimizer", "discriminator_y_optimizer"],
        save_counter := 0 } }

/-- `CycleGanTraining.discriminator_loss` (lines 114–121). -/
noncomputable def CycleGanTraining.discriminator_loss
    (t : CycleGanTraining) (real generated : Tensor) : ℝ :=
  let real_loss := t.loss_obj (onesLike real) real
  let generated_loss := t.loss_obj (zerosLike generated) generated
  let total_disc_loss := real_loss + generated_loss
  total_disc_loss * 0.5

/-- `CycleGanTraining.generator_loss` (lines 123–124). -/
noncomputable def CycleGanTraining.generator_loss
    (t : CycleGanTraining) (generated : Tensor) : ℝ :=
  t.loss_obj (onesLike generated) generated

/-- `CycleGanTraining.calc_cycle_loss` (lines 126–128). -/
noncomputable def CycleGanTraining.calc_cycle_loss
    (t : CycleGanTraining) (real_image cycled_image : Tensor) : ℝ :=
  let loss1 := reduce_mean (tensorAbs (tensorSub real_image cycled_image))
  t.LAMBDA * loss1

/-- `CycleGanTraining.identity_loss` (lines 130–132). -/
noncomputable def CycleGanTraining.identity_loss
    (t : CycleGanTraining) (real_image same_image : Tensor) : ℝ :=
  let loss := reduce_mean (tensorAbs (tensorSub real_image same_image))
  t.LAMBDA * 0.5 * loss

/-- All loss values computed inside the gradient tape of
`CycleGanTraining.train_step` (lines 165–196). -/
structure StepLosses where
  gen_g_loss : ℝ
  gen_f_loss : ℝ
  total_cycle_loss : ℝ
  total_gen_g_loss : ℝ
  total_gen_f_loss : ℝ
  disc_x_loss : ℝ
  disc_y_loss : ℝ

/-- The forward pass and loss computation of `train_step` (lines 165–196),
transcribed let-for-let from the source. -/
noncomputable def CycleGanTraining.train_step_losses
    (t : CycleGanTraining) (real_x real_y : Tensor) : StepLosses :=
  let fake_y := t.generator_g real_x
  let cycled_x := t.generator_f fake_y
  let fake_x := t.generator_f real_y
  let cycled_y := t.generator_g fake_x
  let same_x := t.generator_f real_x
  let same_y := t.generator_g real_y
  let disc_real_x := t.discriminator_x real_x
  let disc_real_y := t.discriminator_y real_y
  let disc_fake_x := t.discriminator_x fake_x
  let disc_fake_y := t.discriminator_y fake_y
  let gen_g_loss := t.generator_loss disc_fake_y
  let gen_f_loss := t.generator_loss disc_fake_x
  let total_cycle_loss :=
    t.calc_cycle_loss real_x cycled_x + t.calc_cycle_loss real_y cycled_y
  let total_gen_g_loss :=
    gen_g_loss + total_cycle_loss + t.identity_loss real_y same_y
  let total_gen_f_loss :=
    gen_f_loss + total_cycle_loss + t.identity_loss real_x same_x
  let disc_x_loss := t.discriminator_loss disc_real_x disc_fake_x
  let disc_y_loss := t.discriminator_loss disc_real_y disc_fake_y
  ⟨gen_g_loss, gen_f_loss, total_cycle_loss,
   total_gen_g_loss, total_gen_f_loss, disc_x_loss, disc_y_loss⟩

/-- The value returned by `train_step` (line 222):
`(disc_x_loss, total_gen_g_loss)`. -/
noncomputable def CycleGanTraining.train_step
    (t : CycleGanTraining) (real_x real_y : Tensor) : ℝ × ℝ :=
  let L := t.train_step_losses real_x real_y
  (L.disc_x_loss, L.total_gen_g_loss)

/- ### Small auxiliary lemmas about the tensor model -/

/-- The elementwise absolute difference of a tensor with itself is all zeros. -/
theorem tensorAbs_tensorSub_self (a : Tensor) :
    tensorAbs (tensorSub a a) = a.map (fun _ => 0) := by
  simp [tensorAbs, tensorSub, List.zipWith_same, List.map_map]

/-- The mean of an all-zero tensor is zero. -/
theorem reduce_mean_map_zero (a : Tensor) :
    reduce_mean (a.map (fun _ => 0)) = 0 := by
  have hz : (a.map (fun _ => (0:ℝ))).sum = 0 :=
    List.sum_eq_zero (by
      intro x hx
      obtain ⟨y, -, rfl⟩ := List.mem_map.mp hx
      rfl)
  simp [reduce_mean, hz]

/-- `reduce_mean` of a list of non-negative entries is non-negative. -/
theorem reduce_mean_nonneg (a : Tensor) (h : ∀ x ∈ a, (0:ℝ) ≤ x) :
    0 ≤ reduce_mean a := by
  unfold reduce_mean
  exact div_nonneg (List.sum_nonneg h) (Nat.cast_nonneg _)

/-- Every entry of an elementwise absolute value is non-negative. -/
theorem tensorAbs_mem_nonneg (a : Tensor) : ∀ x ∈ tensorAbs a, (0:ℝ) ≤ x := by
  intro x hx
  unfold tensorAbs at hx
  obtain ⟨y, -, rfl⟩ := List.mem_map.mp hx
  exact abs_nonneg y

/-- Pointwise sigmoid cross-entropy against label 1 is non-negative. -/
theorem sigmoidCrossEntropy_one_nonneg (z : ℝ) : 0 ≤ sigmoidCrossEntropy 1 z := by
  unfold sigmoidCrossEntropy
  have h1 : (0:ℝ) ≤ max z 0 - z * 1 := by
    simp only [mul_one, sub_nonneg]
    exact le_max_left z 0
  have h2 : (0:ℝ) ≤ Real.log (1 + Real.exp (-|z|)) := by
    apply Real.log_nonneg
    have := Real.exp_pos (-|z|)
    linarith
  linarith

/-- Pointwise sigmoid cross-entropy against label 0 is non-negative. -/
theorem sigmoidCrossEntropy_zero_nonneg (z : ℝ) : 0 ≤ sigmoidCrossEntropy 0 z := by
  unfold sigmoidCrossEntropy
  have h1 : (0:ℝ) ≤ max z 0 := le_max_right z 0
  have h2 : (0:ℝ) ≤ Real.log (1 + Real.exp (-|z|)) := by
    apply Real.log_nonneg
    have := Real.exp_pos (-|z|)
    linarith
  linarith

/-- BCE-with-logits against all-ones labels is non-negative. -/
theorem bceFromLogits_ones_nonneg (a : Tensor) :
    0 ≤ bceFromLogits (onesLike a) a := by
  unfold bceFromLogits
  apply reduce_mean_nonneg
  intro x hx
  unfold onesLike at hx
  rw [List.zipWith_map_left] at hx
  rw [List.zipWith_same] at hx
  obtain ⟨y, -, rfl⟩ := List.mem_map.mp hx
  exact sigmoidCrossEntropy_one_nonneg y

/-- BCE-with-logits against all-zeros labels is non-negative. -/
theorem bceFromLogits_zeros_nonneg (a : Tensor) :
    0 ≤ bceFromLogits (zerosLike a) a := by
  unfold bceFromLogits
  apply reduce_mean_nonneg
  intro x hx
  unfold zerosLike at hx
  rw [List.zipWith_map_left] at hx
  rw [List.zipWith_same] at hx
  obtain ⟨y, -, rfl⟩ := List.mem_map.mp hx
  exact sigmoidCrossEntropy_zero_nonneg y

/-- The mean of an elementwise absolute value is non-negative. -/
theorem reduce_mean_tensorAbs_nonneg (a : Tensor) :
    0 ≤ reduce_mean (tensorAbs a) :=
  reduce_mean_nonneg _ (tensorAbs_mem_nonneg a)

/-- C2: for every trainer produced by the constructor and all tensors `r`, `g`,
`discriminator_loss r g` equals `0.5 * (BCE(ones, r) + BCE(zeros, g))` exactly,
and `generator_loss g` equals `BCE(ones, g)`, where BCE is binary cross-entropy
with `from_logits = True`. -/
theorem claim_C2_loss_formulas
    (gG gF dX dY : Tensor → Tensor) (lr b1 b2 : ℝ) (cp : Option String) :
    (∀ r g : Tensor,
      (CycleGanTraining.mkTrainer gG gF dX dY lr b1 b2 cp).discriminator_loss r g
        = 0.5 * (bceFromLogits (onesLike r) r + bceFromLogits (zerosLike g) g))
    ∧ (∀ g : Tensor,
      (CycleGanTraining.mkTrainer gG gF dX dY lr b1 b2 cp).generator_loss g
        = bceFromLogits (onesLike g) g) := by
  constructor
  · intro r g
    simp only [CycleGanTraining.discriminator_loss, CycleGanTraining.mkTrainer]
    ring
  · intro g
    rfl

/-- C3: for every trainer and every tensor `a`, `calc_cycle_loss a a = 0` and
`identity_loss a a = 0`: both are scaled means of the elementwise absolute
difference of their arguments, which vanishes on equal arguments. -/
theorem claim_C3_self_losses_vanish (t : CycleGanTraining) (a : Tensor) :
    t.calc_cycle_loss a a = 0 ∧ t.identity_loss a a = 0 := by
  constructor
  · unfold CycleGanTraining.calc_cycle_loss
    rw [tensorAbs_tensorSub_self, reduce_mean_map_zero]
    ring
  · unfold CycleGanTraining.identity_loss
    rw [tensorAbs_tensorSub_self, reduce_mean_map_zero]
    ring

/-- C1: for every trainer produced by the constructor and all input batches,
the total generator-G loss computed by `train_step` is the adversarial
generator loss on discriminator-y's score of `G(real_x)`, plus the cycle
losses of both domains, plus the identity loss on domain Y; the total
generator-F loss is symmetric with the identity loss on domain X; the cycle
weight `LAMBDA` is 10; and `train_step` returns the pair
`(disc_x_loss, total_gen_g_loss)`. -/
theorem claim_C1_train_step_composition
    (gG gF dX dY : Tensor → Tensor) (lr b1 b2 : ℝ) (cp : Option String)
    (real_x real_y : Tensor) :
    let t := CycleGanTraining.mkTrainer gG gF dX dY lr b1 b2 cp
    let L := t.train_step_losses real_x real_y
    L.total_gen_g_loss
        = t.generator_loss (t.discriminator_y (t.generator_g real_x))
          + (t.calc_cycle_loss real_x (t.generator_f (t.generator_g real_x))
             + t.calc_cycle_loss real_y (t.generator_g (t.generator_f real_y)))
          + t.identity_loss real_y (t.generator_g real_y)
    ∧ L.total_gen_f_loss
        = t.generator_loss (t.discriminator_x (t.generator_f real_y))
          + (t.calc_cycle_loss real_x (t.generator_f (t.generator_g real_x))
             + t.calc_cycle_loss real_y (t.generator_g (t.generator_f real_y)))
          + t.identity_loss real_x (t.generator_f real_x)
    ∧ t.train_step real_x real_y = (L.disc_x_loss, L.total_gen_g_loss)
    ∧ t.LAMBDA = 10
    ∧ (∀ a b : Tensor,
        t.calc_cycle_loss a b = 10 * reduce_mean (tensorAbs (tensorSub a b))) := by
  refine ⟨rfl, rfl, rfl, rfl, ?_⟩
  intro a b
  rfl

/-- C4 (amended): inside `train_step`, the discriminator losses, cycle losses
and identity losses are all non-negative, and the total generator-G loss is
at least (not strictly above) the raw adversarial term `gen_g_loss`, because
the cycle and identity terms are non-negative additions. -/
theorem claim_C4_losses_nonneg
    (gG gF dX dY : Tensor → Tensor) (lr b1 b2 : ℝ) (cp : Option String)
    (real_x real_y : Tensor) :
    let t := CycleGanTraining.mkTrainer gG gF dX dY lr b1 b2 cp
    let L := t.train_step_losses real_x real_y
    0 ≤ L.disc_x_loss
    ∧ 0 ≤ L.disc_y_loss
    ∧ (∀ a b : Tensor, 0 ≤ t.calc_cycle_loss a b)
    ∧ (∀ a b : Tensor, 0 ≤ t.identity_loss a b)
    ∧ 0 ≤ L.total_cycle_loss
    ∧ L.gen_g_loss ≤ L.total_gen_g_loss := by
  intro t L
  have hdisc : ∀ r g : Tensor, 0 ≤ t.discriminator_loss r g := by
    intro r g
    have h1 := bceFromLogits_ones_nonneg r
    have h2 := bceFromLogits_zeros_nonneg g
    show 0 ≤ (bceFromLogits (onesLike r) r + bceFromLogits (zerosLike g) g) * 0.5
    nlinarith
  have hcyc : ∀ a b : Tensor, 0 ≤ t.calc_cycle_loss a b := by
    intro a b
    have := reduce_mean_tensorAbs_nonneg (tensorSub a b)
    show 0 ≤ (10:ℝ) * reduce_mean (tensorAbs (tensorSub a b))
    nlinarith
  have hid : ∀ a b : Tensor, 0 ≤ t.identity_loss a b := by
    intro a b
    have := reduce_mean_tensorAbs_nonneg (tensorSub a b)
    show 0 ≤ (10:ℝ) * 0.5 * reduce_mean (tensorAbs (tensorSub a b))
    nlinarith
  have hcyc2 : 0 ≤ L.total_cycle_loss := by
    have h1 := hcyc real_x (t.generator_f (t.generator_g real_x))
    have h2 := hcyc real_y (t.generator_g (t.generator_f real_y))
    show 0 ≤ t.calc_cycle_loss real_x (t.generator_f (t.generator_g real_x))
           + t.calc_cycle_loss real_y (t.generator_g (t.generator_f real_y))
    linarith
  refine ⟨hdisc _ _, hdisc _ _, hcyc, hid, hcyc2, ?_⟩
  have hidY := hid real_y (t.generator_g real_y)
  show L.gen_g_loss ≤ L.gen_g_loss + L.total_cycle_loss
        + t.identity_loss real_y (t.generator_g real_y)
  linarith

/-- C4 counterexample: with identity networks and equal one-element batches,
the cycle and identity terms vanish, so the total generator-G loss does NOT
strictly exceed the raw adversarial term: the claimed strict inequality is
false at this input. -/
theorem claim_C4_counterexample :
    ¬ (((CycleGanTraining.mkTrainer (fun x => x) (fun x => x) (fun x => x)
          (fun x => x) 0 0 0 none).train_step_losses
          [(0:ℝ)] [(0:ℝ)]).gen_g_loss
       < ((CycleGanTraining.mkTrainer (fun x => x) (fun x => x) (fun x => x)
          (fun x => x) 0 0 0 none).train_step_losses
          [(0:ℝ)] [(0:ℝ)]).total_gen_g_loss) := by
  have h : ((CycleGanTraining.mkTrainer (fun x => x) (fun x => x) (fun x => x)
          (fun x => x) 0 0 0 none).train_step_losses
          [(0:ℝ)] [(0:ℝ)]).total_gen_g_loss
      = ((CycleGanTraining.mkTrainer (fun x => x) (fun x => x) (fun x => x)
          (fun x => x) 0 0 0 none).train_step_losses
          [(0:ℝ)] [(0:ℝ)]).gen_g_loss := by
    simp [CycleGanTraining.train_step_losses, CycleGanTraining.generator_loss,
      CycleGanTraining.calc_cycle_loss, CycleGanTraining.identity_loss,
      CycleGanTraining.mkTrainer, tensorSub, tensorAbs, reduce_mean]
  rw [h]
  exact lt_irrefl _

/-- Python truthiness of an optional string: `None` and the empty string are
falsy, any other string is truthy. -/
def pyTruthy (o : Option String) : Bool :=
  match o with
  | none => false
  | some s => !s.isEmpty

/-- `CycleGanTraining.save` (lines 150–156).  The first branch uses the
explicit argument; the `elif` branch reads `self.checkpoint_prefix`, an
attribute `__init__` never assigns, so reaching it raises `AttributeError`
(modelled by the membership test against `assignedAttrs`). -/
def CycleGanTraining.save (t : CycleGanTraining) (cpfx : Option String) :
    Except PyError (Option (Checkpoint × String)) :=
  if pyTruthy cpfx then
    Except.ok (some (t.checkpoint.save (cpfx.getD (""))))
  else if ("checkpoint_prefix" : String) ∈ assignedAttrs then
    -- not reachable: the attribute is never assigned by the constructor
    Except.ok none
  else
    Except.error (PyError.attributeError ("checkpoint_prefix"))

/-- C6 (code bug): `__init__` receives `checkpoint_prefix` but never stores
it, so for every trainer — whatever prefix it was constructed with — `save`
with no explicit prefix raises `AttributeError` instead of saving under the
configured prefix; only `save` with an explicit truthy prefix `p` writes a
numbered checkpoint `p ++ "-1"` and returns its path. -/
theorem claim_C6_save_requires_explicit_arg
    (gG gF dX dY : Tensor → Tensor) (lr b1 b2 : ℝ) (cp : Option String) :
    (CycleGanTraining.mkTrainer gG gF dX dY lr b1 b2 cp).save none
        = Except.error (PyError.attributeError ("checkpoint_prefix"))
    ∧ (CycleGanTraining.mkTrainer gG gF dX dY lr b1 b2 cp).save (some (""))
        = Except.error (PyError.attributeError ("checkpoint_prefix"))
    ∧ ∀ p : String, p ≠ "" →
        (CycleGanTraining.mkTrainer gG gF dX dY lr b1 b2 cp).save (some p)
          = Except.ok (some
              ((CycleGanTraining.mkTrainer gG gF dX dY lr b1 b2 cp).checkpoint.save p))
        ∧ ((CycleGanTraining.mkTrainer gG gF dX dY lr b1 b2 cp).checkpoint.save p).1.save_counter
          = 1
        ∧ ((CycleGanTraining.mkTrainer gG gF dX dY lr b1 b2 cp).checkpoint.save p).2
          = p ++ "-" ++ toString 1 := by
  refine ⟨rfl, rfl, ?_⟩
  intro p hp
  have hne : p.isEmpty = false := by
    rcases Bool.eq_false_or_eq_true p.isEmpty with h | h
    · exact absurd ((String.isEmpty_iff p).mp h) hp
    · exact h
  have htruthy : pyTruthy (some p) = true := by
    simp [pyTruthy, hne]
  have hcount : (CycleGanTraining.mkTrainer gG gF dX dY lr b1 b2 cp).checkpoint.save_counter
      = 0 := rfl
  refine ⟨?_, ?_, ?_⟩
  · unfold CycleGanTraining.save
    rw [htruthy]
    rfl
  · unfold Checkpoint.save
    rw [hcount]
  · unfold Checkpoint.save
    rw [hcount]

/-- C6 witness: a concrete trainer, constructed with a prefix argument,
raises `AttributeError` on `save ()` and succeeds on `save "ckpt"`. -/
theorem claim_C6_save_requires_explicit_arg_witness :
    ("ckpt" : String) ≠ ""
    ∧ (CycleGanTraining.mkTrainer (fun x => x) (fun x => x) (fun x => x)
        (fun x => x) 0 0 0 (some ("mydir"))).save none
        = Except.error (PyError.attributeError ("checkpoint_prefix"))
    ∧ ((CycleGanTraining.mkTrainer (fun x => x) (fun x => x) (fun x => x)
          (fun x => x) 0 0 0 (some ("mydir"))).save (some ("ckpt"))
          = Except.ok (some
              ((CycleGanTraining.mkTrainer (fun x => x) (fun x => x) (fun x => x)
                (fun x => x) 0 0 0 (some ("mydir"))).checkpoint.save "ckpt"))
        ∧ ((CycleGanTraining.mkTrainer (fun x => x) (fun x => x) (fun x => x)
            (fun x => x) 0 0 0 (some ("mydir"))).checkpoint.save "ckpt").1.save_counter = 1
        ∧ ((CycleGanTraining.mkTrainer (fun x => x) (fun x => x) (fun x => x)
            (fun x => x) 0 0 0 (some ("mydir"))).checkpoint.save "ckpt").2
          = "ckpt" ++ "-" ++ toString 1) := by
  refine ⟨by decide, ?_, ?_⟩
  · exact (claim_C6_save_requires_explicit_arg (fun x => x) (fun x => x)
      (fun x => x) (fun x => x) 0 0 0 (some ("mydir"))).1
  · exact (claim_C6_save_requires_explicit_arg (fun x => x) (fun x => x)
      (fun x => x) (fun x => x) 0 0 0 (some ("mydir"))).2.2 "ckpt" (by decide)

/-- The normalization layer placed after the 512-filter convolution in the
PatchGAN discriminator. -/
inductive NormLayer where
  | batchNorm
  | instanceNorm
  deriving Repr, DecidableEq

/-- The relevant construction outcome of the PatchGAN `discriminator` builder:
which normalization layer was inserted, and whether the model takes the target
image as a second input. -/
structure PatchGanModel where
  norm1 : NormLayer
  hasTarget : Bool
  deriving Repr, DecidableEq

/-- Python's `str.lower()`: lowercase each character. -/
def pyLower (s : String) : String := ⟨s.data.map Char.toLower⟩

/-- The PatchGAN `discriminator` builder (`CycleGan.py` lines 488–533).  The
local `norm1` is assigned only in the two recognized branches (lines 517–520);
with any other `norm_type` the use at line 522 raises `NameError`, modelled by
the `none` case. -/
def patchganDiscriminator (norm_type : String) (target : Bool) :
    Except PyError PatchGanModel :=
  let norm1 : Option NormLayer :=
    if pyLower norm_type = "batchnorm" then some NormLayer.batchNorm
    else if pyLower norm_type = "instancenorm" then some NormLayer.instanceNorm
    else none
  match norm1 with
  | some n => Except.ok { norm1 := n, hasTarget := target }
  | none => Except.error (PyError.nameError ("norm1"))

/-- C9: calling the PatchGAN discriminator builder with a `norm_type` whose
lowercase form is neither `batchnorm` nor `instancenorm` fails with an
unbound-name error on `norm1`; under the precondition that `norm_type` is one
of those two values (case-insensitively), construction succeeds. -/
theorem claim_C9_patchgan_norm_branch :
    (∀ (s : String) (tg : Bool),
        pyLower s ≠ "batchnorm" → pyLower s ≠ "instancenorm" →
        patchganDiscriminator s tg = Except.error (PyError.nameError ("norm1")))
    ∧ (∀ (s : String) (tg : Bool),
        pyLower s = "batchnorm" ∨ pyLower s = "instancenorm" →
        ∃ m : PatchGanModel, patchganDiscriminator s tg = Except.ok m) := by
  constructor
  · intro s tg h1 h2
    unfold patchganDiscriminator
    rw [if_neg h1, if_neg h2]
  · intro s tg h
    unfold patchganDiscriminator
    rcases h with h | h
    · rw [if_pos h]
      exact ⟨_, rfl⟩
    · by_cases hb : pyLower s = "batchnorm"
      · rw [if_pos hb]
        exact ⟨_, rfl⟩
      · rw [if_neg hb, if_pos h]
        exact ⟨_, rfl⟩

/-- C9 witness: a misspelled norm type fails by `NameError`, while the two
recognized spellings (case-insensitive) construct successfully. -/
theorem claim_C9_patchgan_norm_branch_witness :
    (pyLower ("layernorm") ≠ "batchnorm"
      ∧ pyLower ("layernorm") ≠ "instancenorm"
      ∧ patchganDiscriminator "layernorm" true
          = Except.error (PyError.nameError ("norm1")))
    ∧ (pyLower ("BatchNorm") = "batchnorm"
      ∧ ∃ m : PatchGanModel, patchganDiscriminator "BatchNorm" false = Except.ok m)
    ∧ (pyLower ("InstanceNorm") = "instancenorm"
      ∧ ∃ m : PatchGanModel,
          patchganDiscriminator "InstanceNorm" true = Except.ok m) := by
  refine ⟨⟨by decide, by decide, ?_⟩, ⟨by decide, ?_⟩, ⟨by decide, ?_⟩⟩
  · exact claim_C9_patchgan_norm_branch.1 "layernorm" true (by decide) (by decide)
  · exact claim_C9_patchgan_norm_branch.2 "BatchNorm" false (Or.inl (by decide))
  · exact claim_C9_patchgan_norm_branch.2 "InstanceNorm" true (Or.inr (by decide))

/-- C10: the `beta_2` constructor argument is ignored — two trainers built
with identical arguments except for `beta_2` are identical states, and each
of the four Adam optimizers is configured from `learning_rate` and `beta_1`
only, with `beta_2` at the framework default `0.999`. -/
theorem claim_C10_beta2_ignored
    (gG gF dX dY : Tensor → Tensor) (lr b1 b2 b2' : ℝ) (cp : Option String) :
    CycleGanTraining.mkTrainer gG gF dX dY lr b1 b2 cp
        = CycleGanTraining.mkTrainer gG gF dX dY lr b1 b2' cp
    ∧ (CycleGanTraining.mkTrainer gG gF dX dY lr b1 b2 cp).generator_g_optimizer
        = { learning_rate := lr, beta_1 := b1, beta_2 := 0.999, epsilon := 1e-7 }
    ∧ (CycleGanTraining.mkTrainer gG gF dX dY lr b1 b2 cp).generator_f_optimizer
        = { learning_rate := lr, beta_1 := b1, beta_2 := 0.999, epsilon := 1e-7 }
    ∧ (CycleGanTraining.mkTrainer gG gF dX dY lr b1 b2 cp).discriminator_x_optimizer
        = { learning_rate := lr, beta_1 := b1, beta_2 := 0.999, epsilon := 1e-7 }
    ∧ (CycleGanTraining.mkTrainer gG gF dX dY lr b1 b2 cp).discriminator_y_optimizer
        = { learning_rate := lr, beta_1 := b1, beta_2 := 0.999, epsilon := 1e-7 } :=
  ⟨rfl, rfl, rfl, rfl, rfl⟩

/-- A network's trainable variables, flattened to a list of scalars. -/
abbrev Params : Type := List ℝ

/-- The four networks viewed as functions of their own trainable variables
(the view `tape.gradient` differentiates). -/
structure ParamNets where
  generator_g : Params → Tensor → Tensor
  generator_f : Params → Tensor → Tensor
  discriminator_x : Params → Tensor → Tensor
  discriminator_y : Params → Tensor → Tensor

/-- The current values of the four networks' trainable variables. -/
structure Params4 where
  generator_g : Params
  generator_f : Params
  discriminator_x : Params
  discriminator_y : Params

/-- Modelled from the spec: Adam optimizer state (framework-owned) —
per-parameter moving averages of the gradient and the squared gradient,
plus the step count. -/
structure AdamState where
  m : List ℝ
  v : List ℝ
  stepCount : ℕ

/-- Modelled from the spec: one Adam update (framework-owned): update the two
moving averages from the gradient, bias-correct them, and move each parameter
against the corrected first moment scaled by the learning rate. -/
noncomputable def adamStep (cfg : AdamConfig) (st : AdamState) (g p : List ℝ) :
    AdamState × List ℝ :=
  let t := st.stepCount + 1
  let m := List.zipWith (fun mi gi => cfg.beta_1 * mi + (1 - cfg.beta_1) * gi) st.m g
  let v := List.zipWith (fun vi gi => cfg.beta_2 * vi + (1 - cfg.beta_2) * gi ^ 2) st.v g
  let mhat := m.map (fun mi => mi / (1 - cfg.beta_1 ^ t))
  let vhat := v.map (fun vi => vi / (1 - cfg.beta_2 ^ t))
  let upd := List.zipWith
    (fun pi mv => pi - cfg.learning_rate * mv.1 / (Real.sqrt mv.2 + cfg.epsilon))
    p (mhat.zip vhat)
  (⟨m, v, t⟩, upd)

/-- The states of the four Adam optimizers. -/
structure Opt4 where
  generator_g_optimizer : AdamState
  generator_f_optimizer : AdamState
  discriminator_x_optimizer : AdamState
  discriminator_y_optimizer : AdamState

/-- Instantiate the parametrized networks at the given variables, inheriting
loss object, `LAMBDA` and optimizer configurations from `base`. -/
noncomputable def ParamNets.instantiate
    (n : ParamNets) (p : Params4) (base : CycleGanTraining) : CycleGanTraining :=
  { base with
    generator_g := n.generator_g p.generator_g
    generator_f := n.generator_f p.generator_f
    discriminator_x := n.discriminator_x p.discriminator_x
    discriminator_y := n.discriminator_y p.discriminator_y }

/-- The tape's recorded losses as a function of the current variables. -/
noncomputable def ParamNets.lossesAt
    (n : ParamNets) (base : CycleGanTraining) (p : Params4)
    (real_x real_y : Tensor) : StepLosses :=
  (n.instantiate p base).train_step_losses real_x real_y

/-- The full `train_step` (`CycleGan.py` lines 161–222): the forward pass and
losses inside the tape, then `tape.gradient(loss_i, net_i.trainable_variables)`
— modelled as `grad` applied to loss_i viewed as a function of net i's own
variables with the other networks' variables held at their current values —
then each of the four Adam optimizers applies its gradients to its own
network's variables; returns `(disc_x_loss, total_gen_g_loss)`.  `grad`
abstracts the framework's reverse-mode differentiation. -/
noncomputable def ParamNets.train_step_full
    (n : ParamNets) (base : CycleGanTraining)
    (grad : (Params → ℝ) → Params → Params)
    (p : Params4) (o : Opt4) (real_x real_y : Tensor) :
    Params4 × Opt4 × (ℝ × ℝ) :=
  let L := n.lossesAt base p real_x real_y
  let generator_g_gradients :=
    grad (fun q =>
        (n.lossesAt base { p with generator_g := q } real_x real_y).total_gen_g_loss)
      p.generator_g
  let generator_f_gradients :=
    grad (fun q =>
        (n.lossesAt base { p with generator_f := q } real_x real_y).total_gen_f_loss)
      p.generator_f
  let discriminator_x_gradients :=
    grad (fun q =>
        (n.lossesAt base { p with discriminator_x := q } real_x real_y).disc_x_loss)
      p.discriminator_x
  let discriminator_y_gradients :=
    grad (fun q =>
        (n.lossesAt base { p with discriminator_y := q } real_x real_y).disc_y_loss)
      p.discriminator_y
  let rG := adamStep base.generator_g_optimizer o.generator_g_optimizer
    generator_g_gradients p.generator_g
  let rF := adamStep base.generator_f_optimizer o.generator_f_optimizer
    generator_f_gradients p.generator_f
  let rDx := adamStep base.discriminator_x_optimizer o.discriminator_x_optimizer
    discriminator_x_gradients p.discriminator_x
  let rDy := adamStep base.discriminator_y_optimizer o.discriminator_y_optimizer
    discriminator_y_gradients p.discriminator_y
  (⟨rG.2, rF.2, rDx.2, rDy.2⟩, ⟨rG.1, rF.1, rDx.1, rDy.1⟩,
   (L.disc_x_loss, L.total_gen_g_loss))

/-- C5: in one `train_step`, each of the four networks' new variables is
produced by its own Adam optimizer from the gradient of its own total loss
taken with respect to its own variables only (the others held fixed), all
four networks' variables go through their optimizer's apply step, and no
network's update reads another network's loss — in particular the
generator-G update is unchanged under any change of the other three
optimizers' states. -/
theorem claim_C5_per_network_updates
    (n : ParamNets) (base : CycleGanTraining)
    (grad : (Params → ℝ) → Params → Params)
    (p : Params4) (o : Opt4) (real_x real_y : Tensor) :
    ((n.train_step_full base grad p o real_x real_y).1.generator_g
        = (adamStep base.generator_g_optimizer o.generator_g_optimizer
            (grad (fun q => (n.lossesAt base { p with generator_g := q }
                real_x real_y).total_gen_g_loss) p.generator_g)
            p.generator_g).2
      ∧ (n.train_step_full base grad p o real_x real_y).1.generator_f
        = (adamStep base.generator_f_optimizer o.generator_f_optimizer
            (grad (fun q => (n.lossesAt base { p with generator_f := q }
                real_x real_y).total_gen_f_loss) p.generator_f)
            p.generator_f).2
      ∧ (n.train_step_full base grad p o real_x real_y).1.discriminator_x
        = (adamStep base.discriminator_x_optimizer o.discriminator_x_optimizer
            (grad (fun q => (n.lossesAt base { p with discriminator_x := q }
                real_x real_y).disc_x_loss) p.discriminator_x)
            p.discriminator_x).2
      ∧ (n.train_step_full base grad p o real_x real_y).1.discriminator_y
        = (adamStep base.discriminator_y_optimizer o.discriminator_y_optimizer
            (grad (fun q => (n.lossesAt base { p with discriminator_y := q }
                real_x real_y).disc_y_loss) p.discriminator_y)
            p.discriminator_y).2)
    ∧ (n.train_step_full base grad p o real_x real_y).2.2
        = ((n.lossesAt base p real_x real_y).disc_x_loss,
           (n.lossesAt base p real_x real_y).total_gen_g_loss)
    ∧ ∀ o' : Opt4, o.generator_g_optimizer = o'.generator_g_optimizer →
        (n.train_step_full base grad p o' real_x real_y).1.generator_g
          = (n.train_step_full base grad p o real_x real_y).1.generator_g := by
  refine ⟨⟨rfl, rfl, rfl, rfl⟩, rfl, ?_⟩
  intro o' h
  show (adamStep base.generator_g_optimizer o'.generator_g_optimizer _ _).2
    = (adamStep base.generator_g_optimizer o.generator_g_optimizer _ _).2
  rw [h]

/-- C5 witness: a concrete instantiation in which two optimizer-state vectors
agree on the generator-G component but differ on the discriminator-x
component, and the generator-G update is nonetheless identical. -/
theorem claim_C5_per_network_updates_witness :
    (AdamState.mk [] [] 0 = AdamState.mk [] [] 0)
    ∧ ((ParamNets.mk (fun _ _ => []) (fun _ _ => []) (fun _ _ => [])
          (fun _ _ => [])).train_step_full
        (CycleGanTraining.mkTrainer (fun x => x) (fun x => x) (fun x => x)
          (fun x => x) 0 0 0 none)
        (fun _ q => q) (Params4.mk [] [] [] [])
        (Opt4.mk (AdamState.mk [] [] 0) (AdamState.mk [] [] 0)
          (AdamState.mk [] [] 5) (AdamState.mk [] [] 0)) [] []).1.generator_g
      = ((ParamNets.mk (fun _ _ => []) (fun _ _ => []) (fun _ _ => [])
          (fun _ _ => [])).train_step_full
        (CycleGanTraining.mkTrainer (fun x => x) (fun x => x) (fun x => x)
          (fun x => x) 0 0 0 none)
        (fun _ q => q) (Params4.mk [] [] [] [])
        (Opt4.mk (AdamState.mk [] [] 0) (AdamState.mk [] [] 0)
          (AdamState.mk [] [] 0) (AdamState.mk [] [] 0)) [] []).1.generator_g :=
  ⟨rfl,
   (claim_C5_per_network_updates
      (ParamNets.mk (fun _ _ => []) (fun _ _ => []) (fun _ _ => [])
        (fun _ _ => []))
      (CycleGanTraining.mkTrainer (fun x => x) (fun x => x) (fun x => x)
        (fun x => x) 0 0 0 none)
      (fun _ q => q) (Params4.mk [] [] [] [])
      (Opt4.mk (AdamState.mk [] [] 0) (AdamState.mk [] [] 0)
        (AdamState.mk [] [] 0) (AdamState.mk [] [] 0)) [] []).2.2
     (Opt4.mk (AdamState.mk [] [] 0) (AdamState.mk [] [] 0)
        (AdamState.mk [] [] 5) (AdamState.mk [] [] 0)) rfl⟩

/-- A batched token sequence: (batch, tokens, embedding). -/
abbrev Batch3 : Type := List (List (List ℝ))

/-- `AddCLSToken_layer.call` (`build_discriminator.py` lines 123–130):
`tf.concat([tf.tile(cls_token, [batch_size, 1, 1]), x], axis=1)` — one copy of
the learned classification token is placed before the patch tokens of every
batch element. -/
def addCLSToken (cls_token : List ℝ) (x : Batch3) : Batch3 :=
  x.map (fun tokens => cls_token :: tokens)

/-- The components of the built ViT `discriminator` that its `call` uses after
the multi-scale pipeline.  The pipeline of lines 256–313 (patch embeddings,
windowed attention blocks, pooling, concatenation) is abstracted as `pre`,
since its layers come from `transgan.vit_helper`, which is not part of the
sources; `blocks_last`, `layer_norm` and `head` are the final transformer
block list, the last layer normalization, and the dense classification head. -/
structure ViTDiscriminator (I : Type) where
  pre : I → Batch3
  cls_token : List ℝ
  blocks_last : Batch3 → Batch3
  layer_norm : Batch3 → Batch3
  head : List ℝ → List ℝ

/-- `discriminator.call`, lines 315–325: append the classification token,
run the last transformer block(s), layer-normalize, then apply the dense head
to `x[:, 0]` — the classification-token position — only. -/
def ViTDiscriminator.call {I : Type} (d : ViTDiscriminator I) (input : I) :
    List (List ℝ) :=
  let x1 := d.pre input
  let x2 := addCLSToken d.cls_token x1
  let x3 := d.blocks_last x2
  let x4 := d.layer_norm x3
  (x4.map (fun tokens => tokens.headI)).map d.head

/-- C8: in the ViT discriminator's forward pass, the classification token is
prepended at sequence position 0 — one copy of `cls_token` per batch element,
before the patch tokens, preserving the batch size — and the final logits are
the dense head applied to the classification-token position (index 0) of the
layer-normalized sequence only. -/
theorem claim_C8_cls_token_and_head {I : Type}
    (d : ViTDiscriminator I) (input : I) :
    d.call input
      = (d.layer_norm (d.blocks_last (addCLSToken d.cls_token (d.pre input)))).map
          (fun tokens => d.head tokens.headI)
    ∧ (∀ (c : List ℝ) (x : Batch3) (i : ℕ),
        (addCLSToken c x)[i]? = x[i]?.map (fun tokens => c :: tokens))
    ∧ (∀ (c : List ℝ) (x : Batch3), (addCLSToken c x).length = x.length) := by
  refine ⟨?_, ?_, ?_⟩
  · unfold ViTDiscriminator.call
    rw [List.map_map]
    rfl
  · intro c x i
    unfold addCLSToken
    rw [List.getElem?_map]
  · intro c x
    unfold addCLSToken
    rw [List.length_map]

/-- One pass over the zipped batch list — the inner loop of `train`
(`CycleGan.py` lines 233–239): thread the state through `step`
(`self.train_step`) and remember the most recent `(disc_loss, gen_loss)`.
The incoming optional pair models the Python loss variables persisting from
a previous epoch. -/
def runBatches {S X Y : Type} (step : S → X → Y → S × ℝ × ℝ)
    (ini : S × Option (ℝ × ℝ)) (bs : List (X × Y)) : S × Option (ℝ × ℝ) :=
  bs.foldl (fun acc b =>
    let r := step acc.1 b.1 b.2
    (r.1, some r.2)) ini

/-- The epoch recursion of `train` (lines 229–263): run the inner loop once
per epoch, then append `epoch+1`, the generator loss and the discriminator
loss of the epoch's last `train_step` to the three lists.  `none` models the
`NameError` Python raises at line 257 when the loss variables were never
bound (no batches on the first epoch). -/
def trainGo {S X Y : Type} (step : S → X → Y → S × ℝ × ℝ) (bs : List (X × Y)) :
    ℕ → ℕ → S → Option (ℝ × ℝ) → Option (List ℕ × List ℝ × List ℝ)
  | 0, _, _, _ => some ([], [], [])
  | nn+1, e, s, last =>
    match runBatches step (s, last) bs with
    | (_, none) => none
    | (s1, some dg) =>
      match trainGo step bs nn (e+1) s1 (some dg) with
      | none => none
      | some (es, gs, ds) => some (e :: es, dg.2 :: gs, dg.1 :: ds)

/-- `CycleGanTraining.train` (lines 224–263), with `step` standing for the
bound method `self.train_step`: iterate `epochs` epochs over the zip of the
two datasets starting at epoch index 1 with the loss variables unbound, and
return `np.array([epoch_list, gen_loss_list, disc_loss_list])`. -/
def train {S X Y : Type} (step : S → X → Y → S × ℝ × ℝ) (s0 : S)
    (train_img : List X) (train_tar : List Y) (epochs : ℕ) :
    Option (List ℕ × List ℝ × List ℝ) :=
  trainGo step (train_img.zip train_tar) epochs 1 s0 none

/-- The state transition of a single `train_step` call. -/
def stateStep {S X Y : Type} (step : S → X → Y → S × ℝ × ℝ)
    (s : S) (b : X × Y) : S :=
  (step s b.1 b.2).1

/-- The state after running `train_step` over a list of batches. -/
def statesFold {S X Y : Type} (step : S → X → Y → S × ℝ × ℝ)
    (s : S) (bs : List (X × Y)) : S :=
  bs.foldl (stateStep step) s

/-- The state at the beginning of epoch `e` (0-based). -/
def epochStart {S X Y : Type} (step : S → X → Y → S × ℝ × ℝ)
    (bs : List (X × Y)) (s0 : S) (e : ℕ) : S :=
  (fun s => statesFold step s bs)^[e] s0

/-- The state component of the inner loop is the fold of the per-step state
transition, independently of the incoming loss pair. -/
theorem runBatches_fst {S X Y : Type} (step : S → X → Y → S × ℝ × ℝ)
    (bs : List (X × Y)) :
    ∀ (s : S) (last : Option (ℝ × ℝ)),
      (runBatches step (s, last) bs).1 = statesFold step s bs := by
  induction bs with
  | nil => intro s last; rfl
  | cons b tl ih =>
    intro s last
    show (runBatches step ((step s b.1 b.2).1, some (step s b.1 b.2).2) tl).1
      = statesFold step (stateStep step s b) tl
    exact ih _ _

/-- The inner loop distributes over list concatenation. -/
theorem runBatches_append {S X Y : Type} (step : S → X → Y → S × ℝ × ℝ)
    (ini : S × Option (ℝ × ℝ)) (l1 l2 : List (X × Y)) :
    runBatches step ini (l1 ++ l2) = runBatches step (runBatches step ini l1) l2 := by
  unfold runBatches
  rw [List.foldl_append]

/-- On a non-empty batch list the inner loop ends in the state folded over all
batches, and the recorded pair is the output of `step` on the LAST batch,
taken from the state reached after the earlier batches — whatever losses were
carried in. -/
theorem runBatches_eq {S X Y : Type} (step : S → X → Y → S × ℝ × ℝ)
    (bs : List (X × Y)) (hz : bs ≠ []) (s : S) (last : Option (ℝ × ℝ)) :
    runBatches step (s, last) bs
      = (statesFold step s bs,
         some (step (statesFold step s bs.dropLast)
            (bs.getLast hz).1 (bs.getLast hz).2).2) := by
  have hsplit : bs.dropLast ++ [bs.getLast hz] = bs :=
    List.dropLast_append_getLast hz
  have h1 : runBatches step (s, last) bs
      = runBatches step (runBatches step (s, last) bs.dropLast) [bs.getLast hz] := by
    conv_lhs => rw [← hsplit]
    exact runBatches_append step (s, last) bs.dropLast [bs.getLast hz]
  have hfst : (runBatches step (s, last) bs.dropLast).1
      = statesFold step s bs.dropLast := runBatches_fst step bs.dropLast s last
  apply Prod.ext
  · rw [runBatches_fst step bs s last]
  · rw [h1]
    show some (step (runBatches step (s, last) bs.dropLast).1
        (bs.getLast hz).1 (bs.getLast hz).2).2 = _
    rw [hfst]

/-- Specification of the epoch recursion on a non-empty batch list: it always
succeeds, the epoch list is `[e0, e0+1, ...]`, the loss lists have one entry
per epoch, and the k-th recorded pair is `step` applied to the last batch at
the state reached after the earlier batches of epoch k: the recorded losses
come from the last batch of each epoch only. -/
theorem trainGo_spec {S X Y : Type} (step : S → X → Y → S × ℝ × ℝ)
    (bs : List (X × Y)) (hz : bs ≠ []) :
    ∀ (nn e0 : ℕ) (s : S) (last : Option (ℝ × ℝ)),
    ∃ es gs ds, trainGo step bs nn e0 s last = some (es, gs, ds)
      ∧ es = List.range' e0 nn
      ∧ gs.length = nn ∧ ds.length = nn
      ∧ ∀ k, k < nn →
          (ds.getD k 0, gs.getD k 0)
            = (step (statesFold step (epochStart step bs s k) bs.dropLast)
                (bs.getLast hz).1 (bs.getLast hz).2).2 := by
  intro nn
  induction nn with
  | zero =>
    intro e0 s last
    exact ⟨[], [], [], rfl, rfl, rfl, rfl, by intro k hk; omega⟩
  | succ nn ih =>
    intro e0 s last
    obtain ⟨es, gs, ds, heq, hes, hgl, hdl, hk⟩ :=
      ih (e0+1) (statesFold step s bs)
        (some (step (statesFold step s bs.dropLast)
          (bs.getLast hz).1 (bs.getLast hz).2).2)
    refine ⟨e0 :: es,
      (step (statesFold step s bs.dropLast)
        (bs.getLast hz).1 (bs.getLast hz).2).2.2 :: gs,
      (step (statesFold step s bs.dropLast)
        (bs.getLast hz).1 (bs.getLast hz).2).2.1 :: ds, ?_, ?_, ?_, ?_, ?_⟩
    · show (match runBatches step (s, last) bs with
        | (_, none) => none
        | (s1, some dg) =>
          match trainGo step bs nn (e0+1) s1 (some dg) with
          | none => none
          | some (es, gs, ds) => some (e0 :: es, dg.2 :: gs, dg.1 :: ds)) = _
      rw [runBatches_eq step bs hz s last]
      dsimp only
      rw [heq]
    · rw [List.range'_succ, hes]
    · simp [hgl]
    · simp [hdl]
    · intro k hkk
      cases k with
      | zero =>
        show ((step (statesFold step s bs.dropLast)
            (bs.getLast hz).1 (bs.getLast hz).2).2.1,
          (step (statesFold step s bs.dropLast)
            (bs.getLast hz).1 (bs.getLast hz).2).2.2) = _
        rw [Prod.mk.eta]
        rfl
      | succ k =>
        have hk2 : k < nn := by omega
        have := hk k hk2
        rw [List.getD_cons_succ, List.getD_cons_succ]
        rw [this]
        have hiter : epochStart step bs (statesFold step s bs) k
            = epochStart step bs s (k+1) := by
          unfold epochStart
          rw [Function.iterate_succ_apply]
        rw [hiter]

/-- C7: for every number of epochs, state, `train_step` function and pair of
non-trivially-zipped datasets, `train` returns exactly three parallel
sequences — epoch indices `1..n`, generator losses, discriminator losses —
each of length `n`, and the loss entries for epoch `e` are exactly the values
returned by `train_step` on the LAST batch of epoch `e` (at the state reached
after that epoch's earlier batches), not an aggregate over the epoch. -/
theorem claim_C7_train_records_last_batch
    {S X Y : Type} (step : S → X → Y → S × ℝ × ℝ) (s0 : S)
    (train_img : List X) (train_tar : List Y) (epochs : ℕ)
    (h1 : 1 ≤ epochs) (hz : train_img.zip train_tar ≠ []) :
    ∃ es gs ds, train step s0 train_img train_tar epochs = some (es, gs, ds)
      ∧ es.length = epochs ∧ gs.length = epochs ∧ ds.length = epochs
      ∧ es = List.range' 1 epochs
      ∧ ∀ e, e < epochs →
          (ds.getD e 0, gs.getD e 0)
            = (step
                (statesFold step
                  (epochStart step (train_img.zip train_tar) s0 e)
                  (train_img.zip train_tar).dropLast)
                ((train_img.zip train_tar).getLast hz).1
                ((train_img.zip train_tar).getLast hz).2).2 := by
  obtain ⟨es, gs, ds, heq, hes, hgl, hdl, hk⟩ :=
    trainGo_spec step (train_img.zip train_tar) hz epochs 1 s0 none
  refine ⟨es, gs, ds, heq, ?_, hgl, hdl, hes, hk⟩
  rw [hes, List.length_range']

/-- C7 witness: one epoch over a single batch pair with a concrete step
function returns epoch list `[1]` and singleton loss lists. -/
theorem claim_C7_train_records_last_batch_witness :
    1 ≤ 1
    ∧ (([7].zip [8] : List (ℕ × ℕ)) ≠ [])
    ∧ ∃ es gs ds,
        train (fun (s : ℕ) (x y : ℕ) => (s + 1, ((1:ℝ), (2:ℝ)))) 0 [7] [8] 1
          = some (es, gs, ds)
        ∧ es = [1] ∧ gs.length = 1 ∧ ds.length = 1 := by
  refine ⟨le_refl 1, by decide, ?_⟩
  obtain ⟨es, gs, ds, heq, hel, hgl, hdl, hes, hk⟩ :=
    claim_C7_train_records_last_batch
      (fun (s : ℕ) (x y : ℕ) => (s + 1, ((1:ℝ), (2:ℝ)))) 0 [7] [8] 1
      (le_refl 1) (by decide)
  exact ⟨es, gs, ds, heq, by rw [hes]; rfl, hgl, hdl⟩
